import Mathlib

/-!
Shallow embedding of the ENR (Entropy-Nexus-Revival) economic core of the
univrs/skills repository, together with proofs checking the natural-language
specification against the code.

Conventions of the embedding:
* Rust `u64` / `u32` quantities are modelled as `Nat`; where the source uses
  unchecked machine arithmetic whose overflow/underflow behaviour matters, the
  operation is modelled as an `Option`-valued function (`none` = panic).
* Rust `f64` computations are modelled in exact rational arithmetic (`ℚ`);
  the claims checked here concern the exact mathematical content of those
  computations, not IEEE-754 rounding.
* Stateful async methods of `EnrBridge` are modelled as explicit
  state-passing functions over a `BridgeState` record; the externally
  supplied publish primitive is modelled by a boolean parameter giving its
  outcome, and `Timestamp::now()` by an explicit `now : Nat` parameter.
-/

/-! ## Core types (src/core/types.rs) -/

/-- NodeId: 32-byte identifier, bytewise equality (src/core/types.rs). -/
structure NodeId where
  bytes : List Nat
  deriving DecidableEq, Repr

/-- Lexicographic strict order on NodeId byte strings (used to state the
spec's claimed election tie-break; the source has no such comparison). -/
def NodeId.lexLt (a b : NodeId) : Bool :=
  go a.bytes b.bytes
where
  go : List Nat → List Nat → Bool
    | [], [] => false
    | [], _ :: _ => true
    | _ :: _, [] => false
    | x :: xs, y :: ys => if x < y then true else if y < x then false else go xs ys

/-- Credits: non-negative integer quantity backed by a `u64`
(src/core/types.rs). -/
structure Credits where
  amount : Nat
  deriving DecidableEq, Repr

/-- Upper bound of the `u64` backing store of `Credits`. -/
def U64_MOD : Nat := 2 ^ 64

def Credits.new (amount : Nat) : Credits := ⟨amount⟩

def Credits.zero : Credits := ⟨0⟩

/-- The `Add` operator instance on Credits: unchecked `u64` addition;
`none` models the arithmetic-overflow panic. -/
def Credits.addOp (a b : Credits) : Option Credits :=
  if a.amount + b.amount < U64_MOD then some ⟨a.amount + b.amount⟩ else none

/-- The `Sub` operator instance on Credits: unchecked `u64` subtraction;
`none` models the arithmetic-underflow panic. -/
def Credits.subOp (a b : Credits) : Option Credits :=
  if b.amount ≤ a.amount then some ⟨a.amount - b.amount⟩ else none

/-- Credits::checked_add (src/core/types.rs): `None` on overflow, no panic. -/
def Credits.checked_add (a b : Credits) : Option Credits :=
  if a.amount + b.amount < U64_MOD then some ⟨a.amount + b.amount⟩ else none

/-- Credits::checked_sub (src/core/types.rs): `None` on underflow, no panic. -/
def Credits.checked_sub (a b : Credits) : Option Credits :=
  if b.amount ≤ a.amount then some ⟨a.amount - b.amount⟩ else none

/-- Credits::saturating_add (src/core/types.rs). -/
def Credits.saturating_add (a b : Credits) : Credits :=
  ⟨min (a.amount + b.amount) (U64_MOD - 1)⟩

/-- Credits::saturating_sub (src/core/types.rs); `Nat` subtraction truncates
at zero exactly as `u64::saturating_sub` does. -/
def Credits.saturating_sub (a b : Credits) : Credits :=
  ⟨a.amount - b.amount⟩

def Credits.is_zero (a : Credits) : Bool := a.amount == 0

/-! ## Entropy calculator (src/entropy/types.rs, src/entropy/calculator.rs) -/

/-- EntropyAccount: four entropy components (src/entropy/types.rs). -/
structure EntropyAccount where
  network : ℚ
  compute : ℚ
  storage : ℚ
  temporal : ℚ
  deriving DecidableEq, Repr

/-- EntropyWeights (src/entropy/types.rs). -/
structure EntropyWeights where
  network_weight : ℚ
  compute_weight : ℚ
  storage_weight : ℚ
  temporal_weight : ℚ
  deriving DecidableEq, Repr

/-- Default entropy weights 0.3 / 0.3 / 0.2 / 0.2 (src/entropy/types.rs). -/
def EntropyWeights.default : EntropyWeights :=
  ⟨3/10, 3/10, 2/10, 2/10⟩

/-- NetworkEntropyInput (src/entropy/types.rs). `hops` is a `u32`; the three
other fields are `f64` and hence may carry any sign. -/
structure NetworkEntropyInput where
  hops : Nat
  latency_variance_ms : ℚ
  packet_loss_probability : ℚ
  bandwidth_saturation : ℚ
  deriving DecidableEq, Repr

/-- ComputeEntropyInput (src/entropy/types.rs). -/
structure ComputeEntropyInput where
  cpu_cycles : Nat
  memory_bytes : Nat
  context_switches : Nat
  cache_miss_rate : ℚ
  deriving DecidableEq, Repr

/-- StorageEntropyInput (src/entropy/types.rs). -/
structure StorageEntropyInput where
  size_bytes : Nat
  replica_divergence : ℚ
  fragmentation_ratio : ℚ
  compaction_debt : ℚ
  deriving DecidableEq, Repr

/-- TemporalEntropyInput (src/entropy/types.rs). -/
structure TemporalEntropyInput where
  staleness_seconds : ℚ
  clock_drift_ms : ℚ
  ordering_uncertainty : ℚ
  version_divergence : ℚ
  deriving DecidableEq, Repr

def HOP_ENTROPY_BASE : ℚ := 1/10
def LATENCY_ENTROPY_FACTOR : ℚ := 1/100
def LOSS_ENTROPY_FACTOR : ℚ := 5
def SATURATION_ENTROPY_FACTOR : ℚ := 2
def CYCLE_ENTROPY_FACTOR : ℚ := 1/1000000
def MEMORY_ENTROPY_FACTOR : ℚ := 1/10000000
def CONTEXT_SWITCH_FACTOR : ℚ := 1/100
def CACHE_MISS_FACTOR : ℚ := 1
def SIZE_ENTROPY_FACTOR : ℚ := 1/100000000
def REPLICA_DIVERGENCE_FACTOR : ℚ := 3
def FRAGMENTATION_FACTOR : ℚ := 2
def COMPACTION_DEBT_FACTOR : ℚ := 3/2
def STALENESS_ENTROPY_FACTOR : ℚ := 1/1000
def CLOCK_DRIFT_FACTOR : ℚ := 1/1000
def ORDERING_UNCERTAINTY_FACTOR : ℚ := 2
def VERSION_DIVERGENCE_FACTOR : ℚ := 5/2
def MAX_NETWORK_ENTROPY : ℚ := 10
def MAX_COMPUTE_ENTROPY : ℚ := 10
def MAX_STORAGE_ENTROPY : ℚ := 10
def MAX_TEMPORAL_ENTROPY : ℚ := 10
def LOW_ENTROPY_THRESHOLD : ℚ := 2
def MED_ENTROPY_THRESHOLD : ℚ := 5
def HIGH_ENTROPY_THRESHOLD : ℚ := 8
def MAX_ENTROPY_MULTIPLIER : ℚ := 5

/-- calculate_network_entropy (src/entropy/calculator.rs lines 50-57):
the raw linear combination, capped above by `.min(10.0)`. -/
def calculate_network_entropy (input : NetworkEntropyInput) : ℚ :=
  min ((input.hops : ℚ) * HOP_ENTROPY_BASE
      + input.latency_variance_ms * LATENCY_ENTROPY_FACTOR
      + input.packet_loss_probability * LOSS_ENTROPY_FACTOR
      + input.bandwidth_saturation * SATURATION_ENTROPY_FACTOR)
    MAX_NETWORK_ENTROPY

/-- calculate_compute_entropy (src/entropy/calculator.rs lines 64-71). -/
def calculate_compute_entropy (input : ComputeEntropyInput) : ℚ :=
  min ((input.cpu_cycles : ℚ) * CYCLE_ENTROPY_FACTOR
      + (input.memory_bytes : ℚ) * MEMORY_ENTROPY_FACTOR
      + (input.context_switches : ℚ) * CONTEXT_SWITCH_FACTOR
      + input.cache_miss_rate * CACHE_MISS_FACTOR)
    MAX_COMPUTE_ENTROPY

/-- calculate_storage_entropy (src/entropy/calculator.rs lines 78-85). -/
def calculate_storage_entropy (input : StorageEntropyInput) : ℚ :=
  min ((input.size_bytes : ℚ) * SIZE_ENTROPY_FACTOR
      + input.replica_divergence * REPLICA_DIVERGENCE_FACTOR
      + input.fragmentation_ratio * FRAGMENTATION_FACTOR
      + input.compaction_debt * COMPACTION_DEBT_FACTOR)
    MAX_STORAGE_ENTROPY

/-- calculate_temporal_entropy (src/entropy/calculator.rs lines 92-99). -/
def calculate_temporal_entropy (input : TemporalEntropyInput) : ℚ :=
  min (input.staleness_seconds * STALENESS_ENTROPY_FACTOR
      + input.clock_drift_ms * CLOCK_DRIFT_FACTOR
      + input.ordering_uncertainty * ORDERING_UNCERTAINTY_FACTOR
      + input.version_divergence * VERSION_DIVERGENCE_FACTOR)
    MAX_TEMPORAL_ENTROPY

/-- weighted_entropy_sum (src/entropy/calculator.rs lines 106-111). -/
def weighted_entropy_sum (account : EntropyAccount) (weights : EntropyWeights) : ℚ :=
  account.network * weights.network_weight
    + account.compute * weights.compute_weight
    + account.storage * weights.storage_weight
    + account.temporal * weights.temporal_weight

/-- The piecewise-linear multiplier of entropy_price_multiplier
(src/entropy/calculator.rs lines 118-137) as a function of the weighted
total entropy, including the final `.min(5.0)` cap. -/
def entropy_price_multiplier_of_total (total : ℚ) : ℚ :=
  min
    (if total < LOW_ENTROPY_THRESHOLD then 1 + total * (5/100)
      else if total < MED_ENTROPY_THRESHOLD then 11/10 + (total - 2) * (1/10)
      else if total < HIGH_ENTROPY_THRESHOLD then 14/10 + (total - 5) * (2/10)
      else 2 + (total - 8) * (3/2))
    MAX_ENTROPY_MULTIPLIER

/-- entropy_price_multiplier (src/entropy/calculator.rs lines 118-137):
weighted total with the default weights, then the piecewise multiplier. -/
def entropy_price_multiplier (account : EntropyAccount) : ℚ :=
  entropy_price_multiplier_of_total (weighted_entropy_sum account EntropyWeights.default)

/-- Membership of all four components of an EntropyAccount in `[0, 10]`
(the `EntropyAccount::is_valid` constraint, src/entropy/types.rs). -/
def EntropyAccount.is_valid (a : EntropyAccount) : Prop :=
  0 ≤ a.network ∧ a.network ≤ 10 ∧ 0 ≤ a.compute ∧ a.compute ≤ 10
    ∧ 0 ≤ a.storage ∧ a.storage ≤ 10 ∧ 0 ≤ a.temporal ∧ a.temporal ≤ 10

/-! ## Revival pool (src/revival/pool.rs) -/

/-- The entropy tax rate 0.02 (src/revival/pool.rs line 9). -/
def ENTROPY_TAX_RATE : ℚ := 2/100

/-- calculate_entropy_tax (src/revival/pool.rs lines 92-95): multiply the
amount by the tax rate and take the floor. -/
def calculate_entropy_tax (transaction_amount : Nat) : Nat :=
  (⌊(transaction_amount : ℚ) * ENTROPY_TAX_RATE⌋).toNat

/-! ## Nexus election (src/nexus/election.rs) -/

def MIN_NEXUS_UPTIME : ℚ := 95/100
def MIN_NEXUS_BANDWIDTH : Nat := 10000000
def MIN_NEXUS_REPUTATION : ℚ := 7/10
def MIN_LEAVES_PER_NEXUS : Nat := 5
def MAX_LEAVES_PER_NEXUS : Nat := 50
def UPTIME_WEIGHT : ℚ := 3/10
def BANDWIDTH_WEIGHT : ℚ := 3/10
def REPUTATION_WEIGHT : ℚ := 2/10
def CONNECTIVITY_WEIGHT : ℚ := 2/10

/-- normalize_bandwidth (src/nexus/election.rs lines 26-29): 100 Mbps maps
to 1.0, capped at 1. -/
def normalize_bandwidth (bandwidth : Nat) : ℚ :=
  min ((bandwidth : ℚ) / 100000000) 1

/-- normalize_connectivity (src/nexus/election.rs lines 34-40). The source
computes `optimal = (MIN_LEAVES_PER_NEXUS + MAX_LEAVES_PER_NEXUS) / 2` in
`u32`, so `optimal = 27` (integer division), and the distance is the
absolute `i32` difference `(leaf_count - 27).unsigned_abs()`. -/
def normalize_connectivity (leaf_count : Nat) : ℚ :=
  let optimal : Nat := (MIN_LEAVES_PER_NEXUS + MAX_LEAVES_PER_NEXUS) / 2
  let distance : Nat := ((leaf_count : Int) - (optimal : Int)).natAbs
  let max_distance : ℚ := (MAX_LEAVES_PER_NEXUS : ℚ)
  1 - ((distance : ℚ) / max_distance)

/-- NexusCandidate (src/nexus/types.rs). The Rust struct carries a mutable
`election_score` cache that `elect` fills in before the final max; here the
score is computed on demand by `calculate_election_score`. -/
structure NexusCandidate where
  node : NodeId
  uptime : ℚ
  bandwidth : Nat
  reputation : ℚ
  current_leaf_count : Nat
  deriving DecidableEq, Repr

/-- calculate_election_score (src/nexus/election.rs lines 43-48). -/
def calculate_election_score (candidate : NexusCandidate) : ℚ :=
  candidate.uptime * UPTIME_WEIGHT
    + normalize_bandwidth candidate.bandwidth * BANDWIDTH_WEIGHT
    + candidate.reputation * REPUTATION_WEIGHT
    + normalize_connectivity candidate.current_leaf_count * CONNECTIVITY_WEIGHT

/-- is_nexus_eligible (src/nexus/election.rs lines 59-63). -/
def is_nexus_eligible (uptime : ℚ) (bandwidth : Nat) (reputation : ℚ) : Bool :=
  decide (MIN_NEXUS_UPTIME ≤ uptime)
    && decide (MIN_NEXUS_BANDWIDTH ≤ bandwidth)
    && decide (MIN_NEXUS_REPUTATION ≤ reputation)

/-- The NodeMetrics trait (src/nexus/election.rs lines 51-56), modelled as a
record of the four accessor functions. -/
structure NodeMetrics where
  get_uptime : NodeId → ℚ
  get_bandwidth : NodeId → Nat
  get_reputation : NodeId → ℚ
  get_connection_count : NodeId → Nat

/-- Region (src/nexus/types.rs). -/
structure Region where
  id : String
  nodes : List NodeId
  current_nexus : Option NodeId

/-- Region::with_nodes (src/nexus/types.rs). -/
def Region.with_nodes (id : String) (nodes : List NodeId) : Region :=
  ⟨id, nodes, none⟩

/-- NexusElector::build_candidate (src/nexus/election.rs lines 76-85). -/
def build_candidate (m : NodeMetrics) (node : NodeId) : NexusCandidate :=
  { node := node
    uptime := m.get_uptime node
    bandwidth := m.get_bandwidth node
    reputation := m.get_reputation node
    current_leaf_count := m.get_connection_count node }

/-- Rust `Iterator::max_by` under a total comparison: fold that keeps the
running maximum and replaces it whenever the new element compares not-less,
so among equal maxima the LAST element wins (the documented behaviour of
`max_by`). Returns `none` on the empty list. -/
def max_by_score {α : Type} (score : α → ℚ) : List α → Option α
  | [] => none
  | x :: xs => some (xs.foldl (fun acc y => if score y < score acc then acc else y) x)

/-- NexusElector::elect (src/nexus/election.rs lines 89-137): filter by
eligibility, fall back to the top 3 by reputation (stable sort, descending)
when nobody qualifies, then take the maximum score via `max_by`. -/
def NexusElector.elect (m : NodeMetrics) (region : Region) : Option NodeId :=
  if region.nodes.isEmpty then none
  else
    let qualified := (region.nodes.map (build_candidate m)).filter
        (fun c => is_nexus_eligible c.uptime c.bandwidth c.reputation)
    let candidates :=
      if qualified.isEmpty then
        ((region.nodes.map (build_candidate m)).mergeSort
          (fun a b => decide (b.reputation ≤ a.reputation))).take 3
      else qualified
    if candidates.isEmpty then none
    else (max_by_score calculate_election_score candidates).map (fun c => c.node)

/-! ## Revival pool redistribution (src/revival/pool.rs) -/

def NETWORK_MAINTENANCE_ALLOCATION : ℚ := 40/100
def NEW_NODE_SUBSIDY_ALLOCATION : ℚ := 25/100
def LOW_BALANCE_SUPPORT_ALLOCATION : ℚ := 20/100
def RESERVE_BUFFER_ALLOCATION : ℚ := 15/100
def SUBSIDY_THRESHOLD : Nat := 100
def MIN_NEXUS_UPTIME_FOR_MAINTENANCE : ℚ := 95/100
def MIN_REPUTATION_FOR_SUPPORT : ℚ := 5/10

/-- RevivalPool (src/revival/pool.rs lines 24-33). -/
structure RevivalPool where
  recycled_credits : Credits
  entropy_tax_collected : Credits
  maintenance_fund : Credits
  reserve_buffer : Credits
  deriving DecidableEq, Repr

/-- RevivalPool::available_for_redistribution (src/revival/pool.rs
lines 51-53). -/
def RevivalPool.available_for_redistribution (p : RevivalPool) : Credits :=
  ⟨p.recycled_credits.amount + p.entropy_tax_collected.amount⟩

/-- The NodeMetricsProvider trait (src/revival/pool.rs lines 202-210),
modelled as a record of its accessors. -/
structure NodeMetricsProvider where
  get_all_nodes : List NodeId
  get_nexus_nodes : List NodeId
  get_new_nodes : List NodeId
  get_uptime : NodeId → ℚ
  get_reputation : NodeId → ℚ
  get_balance : NodeId → Credits
  is_healthy : NodeId → Bool

/-- RedistributionPlan (src/revival/pool.rs lines 99-104). -/
structure RedistributionPlan where
  maintenance_recipients : List (NodeId × Credits)
  subsidy_recipients : List (NodeId × Credits)
  support_recipients : List (NodeId × Credits)
  reserve_addition : Credits

/-- RedistributionPlan::default (the all-empty plan). -/
def RedistributionPlan.empty : RedistributionPlan :=
  ⟨[], [], [], ⟨0⟩⟩

/-- RedistributionPlan::total_distributed (src/revival/pool.rs
lines 107-117). -/
def RedistributionPlan.total_distributed (plan : RedistributionPlan) : Credits :=
  ⟨(plan.maintenance_recipients.map (fun p => p.2.amount)).sum
    + (plan.subsidy_recipients.map (fun p => p.2.amount)).sum
    + (plan.support_recipients.map (fun p => p.2.amount)).sum
    + plan.reserve_addition.amount⟩

/-- plan_redistribution (src/revival/pool.rs lines 122-199). Budgets are the
truncations of `total · allocation` (the `as u64` cast of the f64 product);
each recipient class divides its budget equally with integer division. -/
def plan_redistribution (pool : RevivalPool) (metrics : NodeMetricsProvider) :
    RedistributionPlan :=
  let total_available := pool.available_for_redistribution.amount
  if total_available = 0 then RedistributionPlan.empty
  else
    let maintenance_budget := (⌊(total_available : ℚ) * NETWORK_MAINTENANCE_ALLOCATION⌋).toNat
    let subsidy_budget := (⌊(total_available : ℚ) * NEW_NODE_SUBSIDY_ALLOCATION⌋).toNat
    let support_budget := (⌊(total_available : ℚ) * LOW_BALANCE_SUPPORT_ALLOCATION⌋).toNat
    let reserve_budget := (⌊(total_available : ℚ) * RESERVE_BUFFER_ALLOCATION⌋).toNat
    let nexus_nodes := metrics.get_nexus_nodes.filter
        (fun n => decide (MIN_NEXUS_UPTIME_FOR_MAINTENANCE ≤ metrics.get_uptime n))
    let maintenance_per_node :=
      if nexus_nodes.isEmpty then 0 else maintenance_budget / nexus_nodes.length
    let maintenance_recipients :=
      nexus_nodes.map (fun n => (n, Credits.new maintenance_per_node))
    let new_nodes := metrics.get_new_nodes.filter (fun n => metrics.is_healthy n)
    let subsidy_per_node :=
      if new_nodes.isEmpty then 0 else subsidy_budget / new_nodes.length
    let subsidy_recipients :=
      new_nodes.map (fun n => (n, Credits.new subsidy_per_node))
    let struggling_nodes :=
      (metrics.get_all_nodes.filter
          (fun n => decide ((metrics.get_balance n).amount < SUBSIDY_THRESHOLD))).filter
        (fun n => decide (MIN_REPUTATION_FOR_SUPPORT ≤ metrics.get_reputation n))
    let support_per_node :=
      if struggling_nodes.isEmpty then 0 else support_budget / struggling_nodes.length
    let support_recipients :=
      struggling_nodes.map (fun n => (n, Credits.new support_per_node))
    { maintenance_recipients := maintenance_recipients
      subsidy_recipients := subsidy_recipients
      support_recipients := support_recipients
      reserve_addition := Credits.new reserve_budget }

/-! ## Septal gate (src/septal/gate.rs) -/

def FAILURE_THRESHOLD : Nat := 5

/-- SeptalGateState (src/septal/gate.rs): Open = normal, HalfOpen = testing
recovery, Closed = isolated. -/
inductive SeptalGateState
  | Open
  | HalfOpen
  | Closed
  deriving DecidableEq, Repr

def SeptalGateState.is_closed : SeptalGateState → Bool
  | .Closed => true
  | _ => false

def SeptalGateState.is_half_open : SeptalGateState → Bool
  | .HalfOpen => true
  | _ => false

/-- SeptalGate (src/septal/gate.rs). Timestamps are milliseconds. -/
structure SeptalGate where
  node : NodeId
  state : SeptalGateState
  failure_count : Nat
  last_failure : Option Nat
  isolation_start : Option Nat
  deriving DecidableEq, Repr

def SeptalGate.new (node : NodeId) : SeptalGate :=
  ⟨node, .Open, 0, none, none⟩

/-- SeptalGate::record_failure; `now` stands for `Timestamp::now()`. -/
def SeptalGate.record_failure (g : SeptalGate) (now : Nat) : SeptalGate :=
  { g with failure_count := g.failure_count + 1, last_failure := some now }

def SeptalGate.record_success (g : SeptalGate) : SeptalGate :=
  { g with failure_count := 0 }

def SeptalGate.should_trip (g : SeptalGate) : Bool :=
  FAILURE_THRESHOLD ≤ g.failure_count

def SeptalGate.trip (g : SeptalGate) (now : Nat) : SeptalGate :=
  { g with state := .Closed, isolation_start := some now }

def SeptalGate.recover (g : SeptalGate) : SeptalGate :=
  { g with state := .Open, failure_count := 0, isolation_start := none }

/-! ## Bridge messages (src/bridge/messages.rs)

Signatures are opaque byte blobs never inspected by any handler, so they are
modelled as `List Nat`; timestamps are milliseconds (`Nat`). -/

/-- ResourceGradient (src/nexus/types.rs): a node's availability vector. -/
structure ResourceGradient where
  cpu_available : ℚ
  memory_available : ℚ
  gpu_available : ℚ
  storage_available : ℚ
  bandwidth_available : ℚ
  credit_balance : ℚ
  deriving DecidableEq, Repr

/-- GradientPayload (src/bridge/messages.rs): the wire form of a gradient. -/
structure GradientPayload where
  cpu_available : ℚ
  memory_available : ℚ
  gpu_available : ℚ
  storage_available : ℚ
  bandwidth_available : ℚ
  credit_balance : ℚ
  deriving DecidableEq, Repr

/-- GradientPayload::to_resource_gradient (src/bridge/messages.rs). -/
def GradientPayload.to_resource_gradient (p : GradientPayload) : ResourceGradient :=
  ⟨p.cpu_available, p.memory_available, p.gpu_available,
   p.storage_available, p.bandwidth_available, p.credit_balance⟩

/-- GradientMessage (src/bridge/messages.rs). -/
structure GradientMessage where
  node_id : NodeId
  gradient : GradientPayload
  timestamp : Nat
  signature : List Nat
  deriving DecidableEq, Repr

/-- TransferId (src/bridge/messages.rs): 32 bytes derived deterministically
from `(from, to, amount, nonce)` by hashing; modelled as the tuple itself
(the derivation is deterministic and the embedding abstracts from hash
collisions; the nonce is embedded verbatim in the id bytes). -/
structure TransferId where
  from_node : NodeId
  to_node : NodeId
  amount : Nat
  nonce : Nat
  deriving DecidableEq, Repr

/-- CreditTransfer message (src/bridge/messages.rs). -/
structure CreditTransfer where
  id : TransferId
  from_node : NodeId
  to_node : NodeId
  amount : Nat
  nonce : Nat
  timestamp : Nat
  memo : Option String
  signature : List Nat
  deriving DecidableEq, Repr

/-- TransferConfirmation (src/bridge/messages.rs). -/
structure TransferConfirmation where
  transfer_id : TransferId
  confirmer : NodeId
  timestamp : Nat
  signature : List Nat
  deriving DecidableEq, Repr

/-- CreditStateSync (src/bridge/messages.rs). -/
structure CreditStateSync where
  node_id : NodeId
  balance : Nat
  version : Nat
  timestamp : Nat
  signature : List Nat
  deriving DecidableEq, Repr

/-- CreditMessage (src/bridge/messages.rs). -/
inductive CreditMessage
  | Transfer (t : CreditTransfer)
  | Confirmation (c : TransferConfirmation)
  | StateSync (s : CreditStateSync)
  | BalanceQuery (requester target : NodeId)
  | BalanceResponse (node_id : NodeId) (balance : Nat)
  deriving DecidableEq, Repr

/-- ElectionAnnouncement (src/bridge/messages.rs). -/
structure ElectionAnnouncement where
  election_id : List Nat
  initiator : NodeId
  timestamp : Nat
  round : Nat
  deriving DecidableEq, Repr

/-- ElectionCandidacy (src/bridge/messages.rs). -/
structure ElectionCandidacy where
  election_id : List Nat
  candidate : NodeId
  uptime : ℚ
  bandwidth : Nat
  reputation : ℚ
  current_leaf_count : Nat
  timestamp : Nat
  signature : List Nat
  deriving DecidableEq, Repr

/-- ElectionVote (src/bridge/messages.rs). -/
structure ElectionVote where
  election_id : List Nat
  voter : NodeId
  candidate : NodeId
  timestamp : Nat
  signature : List Nat
  deriving DecidableEq, Repr

/-- ElectionResult (src/bridge/messages.rs). -/
structure ElectionResult where
  election_id : List Nat
  winner : NodeId
  vote_count : Nat
  timestamp : Nat
  deriving DecidableEq, Repr

/-- ElectionMessage (src/bridge/messages.rs). -/
inductive ElectionMessage
  | Announcement (a : ElectionAnnouncement)
  | Candidacy (c : ElectionCandidacy)
  | Vote (v : ElectionVote)
  | Result (r : ElectionResult)
  deriving DecidableEq, Repr

/-- FailureReport (src/bridge/messages.rs). -/
structure FailureReport where
  reporter : NodeId
  failed_node : NodeId
  failure_type : String
  timestamp : Nat
  signature : List Nat
  deriving DecidableEq, Repr

/-- IsolationNotice (src/bridge/messages.rs). -/
structure IsolationNotice where
  isolated_node : NodeId
  reason : String
  timestamp : Nat
  deriving DecidableEq, Repr

/-- HealingProbe (src/bridge/messages.rs). -/
structure HealingProbe where
  probe_id : List Nat
  initiator : NodeId
  target : NodeId
  timestamp : Nat
  deriving DecidableEq, Repr

/-- HealingResponse (src/bridge/messages.rs). -/
structure HealingResponse where
  probe_id : List Nat
  responder : NodeId
  state : SeptalGateState
  timestamp : Nat
  deriving DecidableEq, Repr

/-- RecoveryNotice (src/bridge/messages.rs). -/
structure RecoveryNotice where
  recovered_node : NodeId
  timestamp : Nat
  deriving DecidableEq, Repr

/-- SeptalMessage (src/bridge/messages.rs). -/
inductive SeptalMessage
  | FailureReport (r : FailureReport)
  | Isolation (n : IsolationNotice)
  | HealingProbe (p : HealingProbe)
  | HealingResponse (r : HealingResponse)
  | Recovery (n : RecoveryNotice)
  deriving DecidableEq, Repr

/-- EnrMessage (src/bridge/messages.rs): unified envelope. -/
inductive EnrMessage
  | Gradient (m : GradientMessage)
  | Election (m : ElectionMessage)
  | Credit (m : CreditMessage)
  | Septal (m : SeptalMessage)
  deriving DecidableEq, Repr

/-! ## Bridge errors (src/bridge/error.rs) -/

/-- BridgeError (src/bridge/error.rs). -/
inductive BridgeError
  | NotConnected
  | Network (msg : String)
  | Serialization (msg : String)
  | Deserialization (msg : String)
  | MessageExpired
  | InvalidMessage (msg : String)
  | UnknownTopic (msg : String)
  | NodeIsolated
  deriving DecidableEq, Repr

/-- TransferError (src/bridge/error.rs). Note there is no NodeIsolated
variant: `EnrBridge::transfer` cannot surface an isolation error. -/
inductive TransferError
  | ZeroAmount
  | SelfTransfer
  | InsufficientBalance
  | Cancelled
  | Timeout
  | InvalidSignature
  | Duplicate
  deriving DecidableEq, Repr

/-! ## The EnrBridge coordinator (src/bridge/mod.rs)

The bridge owns several `HashMap`s; each is modelled as an association list
with HashMap insert/lookup/remove semantics (insert replaces an existing
key in place). -/

/-- HashMap::get. -/
def alist_lookup {κ β : Type} [DecidableEq κ] : List (κ × β) → κ → Option β
  | [], _ => none
  | (k, v) :: rest, key => if k = key then some v else alist_lookup rest key

/-- HashMap::insert (replace the existing entry or append a new one). -/
def alist_insert {κ β : Type} [DecidableEq κ] : List (κ × β) → κ → β → List (κ × β)
  | [], key, v => [(key, v)]
  | (k, w) :: rest, key, v =>
    if k = key then (key, v) :: rest else (k, w) :: alist_insert rest key v

/-- HashMap::remove. -/
def alist_remove {κ β : Type} [DecidableEq κ] : List (κ × β) → κ → List (κ × β)
  | [], _ => []
  | (k, w) :: rest, key =>
    if k = key then rest else (k, w) :: alist_remove rest key

/-- NexusRoleType (src/nexus/types.rs). -/
inductive NexusRoleType
  | Leaf
  | Nexus
  | PoteauMitan
  deriving DecidableEq, Repr

/-- NexusRole (src/nexus/types.rs). -/
structure NexusRole where
  role_type : NexusRoleType
  parent : Option NodeId
  children : List NodeId
  deriving DecidableEq, Repr

/-- NexusTopology (src/nexus/types.rs). -/
structure NexusTopology where
  node : NodeId
  role : NexusRole
  aggregated_gradient : ResourceGradient
  leaf_count : Nat
  last_election : Nat
  deriving DecidableEq, Repr

/-- TopologyManager::update_gradient (src/nexus/topology.rs lines 102-106):
overwrite the stored aggregated gradient if the node has an entry. -/
def topology_update_gradient (tps : List (NodeId × NexusTopology))
    (node : NodeId) (g : ResourceGradient) : List (NodeId × NexusTopology) :=
  match alist_lookup tps node with
  | some topo => alist_insert tps node { topo with aggregated_gradient := g }
  | none => tps

/-- The mutable state owned by EnrBridge (src/bridge/mod.rs lines 127-150):
one field per RwLock-protected cell. -/
structure BridgeState where
  topology : List (NodeId × NexusTopology)
  gradients : List (NodeId × ResourceGradient)
  local_gradient : ResourceGradient
  local_balance : Credits
  septal_gates : List (NodeId × SeptalGate)
  known_balances : List (NodeId × Credits)
  pending_transfers : List (TransferId × CreditTransfer)
  deriving DecidableEq, Repr

/-- EnrBridge::is_isolated (src/bridge/mod.rs lines 584-590). -/
def EnrBridge.is_isolated (st : BridgeState) (node : NodeId) : Bool :=
  ((alist_lookup st.septal_gates node).map (fun g => g.state.is_closed)).getD false

/-- EnrBridge::transfer (src/bridge/mod.rs lines 429-480). `local_id` is the
bridge's own id, `publish_ok` the outcome of the externally supplied publish
primitive (false covering both a disconnected publisher and a network
failure), `now` the value of `Timestamp::now()` in ms (used as the nonce).
Validation order follows the source: zero amount, self transfer, balance;
then the balance is decremented (saturating_sub), the pending transfer is
recorded, and the message is published, a publish failure being mapped to
`Cancelled` with no rollback. The source performs no septal-gate check. -/
def EnrBridge.transfer (local_id : NodeId) (publish_ok : Bool) (now : Nat)
    (st : BridgeState) (dest : NodeId) (amount : Credits) :
    Except TransferError TransferId × BridgeState :=
  if amount.is_zero then (.error .ZeroAmount, st)
  else if dest = local_id then (.error .SelfTransfer, st)
  else if st.local_balance.amount < amount.amount then (.error .InsufficientBalance, st)
  else
    let nonce := now
    let transfer_id : TransferId := ⟨local_id, dest, amount.amount, nonce⟩
    let transfer : CreditTransfer :=
      ⟨transfer_id, local_id, dest, amount.amount, nonce, now, none, List.replicate 64 0⟩
    let st1 := { st with local_balance := st.local_balance.saturating_sub amount }
    let st2 := { st1 with
      pending_transfers := alist_insert st1.pending_transfers transfer_id transfer }
    if publish_ok then (.ok transfer_id, st2) else (.error .Cancelled, st2)

/-- The store step of EnrBridge::handle_gradient_message (src/bridge/mod.rs
lines 337-349): insert into the gradient map and update the topology. -/
def gradient_store (st : BridgeState) (msg : GradientMessage) : BridgeState :=
  let g := msg.gradient.to_resource_gradient
  let st1 := { st with gradients := alist_insert st.gradients msg.node_id g }
  { st1 with topology := topology_update_gradient st1.topology msg.node_id g }

/-- EnrBridge::handle_gradient_message (src/bridge/mod.rs lines 326-350):
messages from a node whose gate is Closed are ignored; otherwise the
gradient is stored. -/
def EnrBridge.handle_gradient_message (st : BridgeState) (msg : GradientMessage) :
    Except BridgeError Unit × BridgeState :=
  match alist_lookup st.septal_gates msg.node_id with
  | some gate =>
    if gate.state.is_closed then (.ok (), st) else (.ok (), gradient_store st msg)
  | none => (.ok (), gradient_store st msg)

/-- EnrBridge::handle_election_message (src/bridge/mod.rs lines 386-411):
Announcement, Candidacy and Vote are TODO stubs (no effect); Result promotes
the winner's topology entry, if any, to the Nexus role. -/
def EnrBridge.handle_election_message (st : BridgeState) (msg : ElectionMessage) :
    Except BridgeError Unit × BridgeState :=
  match msg with
  | .Announcement _ => (.ok (), st)
  | .Candidacy _ => (.ok (), st)
  | .Vote _ => (.ok (), st)
  | .Result result =>
    match alist_lookup st.topology result.winner with
    | some topo =>
      (.ok (), { st with topology := (alist_insert st.topology result.winner
          { topo with role := { topo.role with role_type := .Nexus } }) })
    | none => (.ok (), st)

/-- EnrBridge::handle_credit_message (src/bridge/mod.rs lines 483-550).
A Transfer credits the local balance when we are the recipient (unchecked
`u64` add in the source, exact addition here) and updates known balances
(saturating_sub on the sender, add on the recipient); a Confirmation removes
the pending entry; StateSync and BalanceResponse overwrite a known balance;
BalanceQuery only publishes a response (no state change). -/
def EnrBridge.handle_credit_message (local_id : NodeId) (st : BridgeState)
    (msg : CreditMessage) : Except BridgeError Unit × BridgeState :=
  match msg with
  | .Transfer transfer =>
    let st1 :=
      if transfer.to_node = local_id then
        { st with local_balance := ⟨st.local_balance.amount + transfer.amount⟩ }
      else st
    let st2 :=
      match alist_lookup st1.known_balances transfer.from_node with
      | some sender_balance =>
        { st1 with known_balances := (alist_insert st1.known_balances transfer.from_node
            (sender_balance.saturating_sub ⟨transfer.amount⟩)) }
      | none => st1
    let recipient_balance :=
      (alist_lookup st2.known_balances transfer.to_node).getD Credits.zero
    let st3 := { st2 with known_balances := (alist_insert st2.known_balances transfer.to_node
        ⟨recipient_balance.amount + transfer.amount⟩) }
    (.ok (), st3)
  | .Confirmation confirmation =>
    (.ok (), { st with
      pending_transfers := alist_remove st.pending_transfers confirmation.transfer_id })
  | .StateSync sync =>
    (.ok (), { st with
      known_balances := alist_insert st.known_balances sync.node_id ⟨sync.balance⟩ })
  | .BalanceQuery _ _ => (.ok (), st)
  | .BalanceResponse node_id balance =>
    (.ok (), { st with
      known_balances := alist_insert st.known_balances node_id ⟨balance⟩ })

/-- EnrBridge::handle_septal_message (src/bridge/mod.rs lines 602-657). -/
def EnrBridge.handle_septal_message (local_id : NodeId) (now : Nat)
    (st : BridgeState) (msg : SeptalMessage) :
    Except BridgeError Unit × BridgeState :=
  match msg with
  | .FailureReport report =>
    let gate := (alist_lookup st.septal_gates report.failed_node).getD
        (SeptalGate.new report.failed_node)
    let gate1 := gate.record_failure now
    let gate2 := if gate1.should_trip then gate1.trip now else gate1
    (.ok (), { st with
      septal_gates := alist_insert st.septal_gates report.failed_node gate2 })
  | .Isolation notice =>
    let gate := (alist_lookup st.septal_gates notice.isolated_node).getD
        (SeptalGate.new notice.isolated_node)
    (.ok (), { st with
      septal_gates := alist_insert st.septal_gates notice.isolated_node (gate.trip now) })
  | .HealingProbe probe =>
    let _ := probe.target = local_id
    (.ok (), st)
  | .HealingResponse response =>
    match alist_lookup st.septal_gates response.responder with
    | some gate =>
      let gate1 := gate.record_success
      let gate2 := if gate1.state.is_half_open then gate1.recover else gate1
      (.ok (), { st with
        septal_gates := alist_insert st.septal_gates response.responder gate2 })
    | none => (.ok (), st)
  | .Recovery notice =>
    match alist_lookup st.septal_gates notice.recovered_node with
    | some gate =>
      (.ok (), { st with
        septal_gates := alist_insert st.septal_gates notice.recovered_node gate.recover })
    | none => (.ok (), st)

/-- EnrBridge::handle_message (src/bridge/mod.rs lines 232-250). The age
check `now.saturating_sub(timestamp) > max_message_age` is applied in the
Gradient arm only; Election, Credit and Septal messages are routed to their
handlers unconditionally. `Nat` subtraction is saturating. -/
def EnrBridge.handle_message (local_id : NodeId) (now max_message_age_ms : Nat)
    (st : BridgeState) (message : EnrMessage) :
    Except BridgeError Unit × BridgeState :=
  match message with
  | .Gradient msg =>
    if max_message_age_ms < now - msg.timestamp then (.error .MessageExpired, st)
    else EnrBridge.handle_gradient_message st msg
  | .Election msg => EnrBridge.handle_election_message st msg
  | .Credit msg => EnrBridge.handle_credit_message local_id st msg
  | .Septal msg => EnrBridge.handle_septal_message local_id now st msg

/-! ## Helper lemmas -/

/-- Truncating the exact product `t · (a/b)` to an integer is `Nat` division:
the semantics of the source's `(t as f64 * rate) as u64` budget and tax
computations in exact arithmetic. -/
lemma toNat_floor_mul_ratio (t a b : Nat) :
    (⌊(t : ℚ) * ((a : ℚ) / (b : ℚ))⌋).toNat = t * a / b := by
  rw [Int.floor_toNat,
    show ((t : ℚ) * ((a : ℚ) / (b : ℚ))) = (((t * a : Nat) : ℚ) / ((b : Nat) : ℚ)) by
      push_cast; ring]
  exact Nat.floor_div_eq_div (t * a) b

/-- All-zero resource gradient (the `Default` instance of ResourceGradient). -/
def ResourceGradient.zero : ResourceGradient := ⟨0, 0, 0, 0, 0, 0⟩

/-- Concrete 32-byte node id `[1; 32]` (the tests' `test_node_id`). -/
def nidA : NodeId := ⟨List.replicate 32 1⟩

/-- Concrete 32-byte node id `[2; 32]`. -/
def nidB : NodeId := ⟨List.replicate 32 2⟩

/-- Concrete 32-byte node id `[3; 32]`. -/
def nidC : NodeId := ⟨List.replicate 32 3⟩

/-- Bridge state of scenario S5: local balance 1000, everything else empty. -/
def s5_state : BridgeState :=
  ⟨[], [], ResourceGradient.zero, ⟨1000⟩, [], [], []⟩

/-! ## C8: the entropy tax is exactly 2 percent rounded down -/

/-- C8: for every Credits amount, calculate_entropy_tax returns exactly
`amount * 2 / 100` (floor division), i.e. 2 percent rounded down, in the
exact-arithmetic semantics of the source's f64 computation. -/
theorem calculate_entropy_tax_exact (amount : Nat) :
    calculate_entropy_tax amount = amount * 2 / 100 := by
  rw [calculate_entropy_tax, ENTROPY_TAX_RATE,
    show ((2 : ℚ) / 100) = (((2 : Nat) : ℚ) / ((100 : Nat) : ℚ)) by norm_num]
  exact toNat_floor_mul_ratio amount 2 100

/-! ## C10: unchecked Credits arithmetic is partial -/

/-- C10: the `Sub` operator on Credits underflows (panics, modelled `none`)
exactly when the subtrahend exceeds the minuend, the `Add` operator can
overflow, while checked_sub/checked_add return `none` gracefully on exactly
those inputs and the saturating variants are total with truncation. -/
theorem credits_unchecked_arith_panics :
    (∀ a b : Credits, a.amount < b.amount → Credits.subOp a b = none)
    ∧ (∃ a b : Credits, Credits.addOp a b = none)
    ∧ (∀ a b : Credits,
        (Credits.checked_sub a b = none ↔ a.amount < b.amount)
        ∧ (Credits.checked_add a b = none ↔ U64_MOD ≤ a.amount + b.amount))
    ∧ (∀ a b : Credits, (Credits.saturating_sub a b).amount = a.amount - b.amount)
    ∧ (∀ a b : Credits,
        (Credits.saturating_add a b).amount = min (a.amount + b.amount) (U64_MOD - 1)) := by
  refine ⟨?_, ⟨⟨U64_MOD⟩, ⟨1⟩, ?_⟩, ?_, fun a b => rfl, fun a b => rfl⟩
  · intro a b h
    rw [Credits.subOp, if_neg (by omega)]
  · rw [Credits.addOp, if_neg (by simp [U64_MOD])]
  · intro a b
    constructor
    · rw [Credits.checked_sub]
      split_ifs with h
      · simp
        omega
      · simp
        omega
    · rw [Credits.checked_add]
      split_ifs with h
      · simp
        omega
      · simp
        omega

/-- Witness for C10: `0 - 1` on Credits panics (`none`). -/
theorem credits_unchecked_arith_panics_witness :
    Credits.subOp ⟨0⟩ ⟨1⟩ = none :=
  credits_unchecked_arith_panics.1 ⟨0⟩ ⟨1⟩ (by decide)

/-! ## C2: transfer validation scenario S5 -/

/-- C2: with local balance 1000, transfer to self yields SelfTransfer,
transfer of 0 yields ZeroAmount, transfer of 2000 yields
InsufficientBalance — each leaving the state (balance and pending map)
unchanged — and transfer of 100 to a peer succeeds leaving balance 900. -/
theorem transfer_validation_scenario :
    EnrBridge.transfer nidA true 12345 s5_state nidA ⟨100⟩ = (.error .SelfTransfer, s5_state)
    ∧ EnrBridge.transfer nidA true 12345 s5_state nidB ⟨0⟩ = (.error .ZeroAmount, s5_state)
    ∧ EnrBridge.transfer nidA true 12345 s5_state nidB ⟨2000⟩ =
        (.error .InsufficientBalance, s5_state)
    ∧ (EnrBridge.transfer nidA true 12345 s5_state nidB ⟨100⟩).1 =
        .ok ⟨nidA, nidB, 100, 12345⟩
    ∧ (EnrBridge.transfer nidA true 12345 s5_state nidB ⟨100⟩).2.local_balance = ⟨900⟩
    ∧ (EnrBridge.transfer nidA true 12345 s5_state nidB ⟨100⟩).2.pending_transfers =
        [(⟨nidA, nidB, 100, 12345⟩,
          ⟨⟨nidA, nidB, 100, 12345⟩, nidA, nidB, 100, 12345, 12345, none,
            List.replicate 64 0⟩)] :=
  ⟨rfl, rfl, rfl, rfl, rfl, rfl⟩

/-! ## C9: transfer is not atomic when publish fails -/

/-- C9: when the publish primitive fails after validation, transfer returns
Cancelled while the local balance has already been decremented and the
pending transfer recorded; nothing is rolled back. -/
theorem transfer_not_atomic_on_publish_failure :
    (EnrBridge.transfer nidA false 12345 s5_state nidB ⟨100⟩).1 = .error .Cancelled
    ∧ (EnrBridge.transfer nidA false 12345 s5_state nidB ⟨100⟩).2.local_balance = ⟨900⟩
    ∧ alist_lookup (EnrBridge.transfer nidA false 12345 s5_state nidB ⟨100⟩).2.pending_transfers
        ⟨nidA, nidB, 100, 12345⟩ =
        some ⟨⟨nidA, nidB, 100, 12345⟩, nidA, nidB, 100, 12345, 12345, none,
          List.replicate 64 0⟩ :=
  ⟨rfl, rfl, rfl⟩

/-! ## C1: transfer performs no septal-gate check -/

/-- Bridge state with balance 1000 and the recipient's gate Closed. -/
def closed_gate_state : BridgeState :=
  ⟨[], [], ResourceGradient.zero, ⟨1000⟩,
    [(nidB, ⟨nidB, .Closed, 5, some 0, some 0⟩)], [], []⟩

/-- C1 (failing input): the recipient nidB is isolated (its gate is Closed
and `is_isolated` reports it), yet `EnrBridge::transfer` succeeds, debits
the balance and records the pending transfer: the source contains no gate
check in transfer, and its TransferError type has no NodeIsolated variant. -/
theorem transfer_applies_while_endpoint_closed :
    EnrBridge.is_isolated closed_gate_state nidB = true
    ∧ (EnrBridge.transfer nidA true 12345 closed_gate_state nidB ⟨100⟩).1 =
        .ok ⟨nidA, nidB, 100, 12345⟩
    ∧ (EnrBridge.transfer nidA true 12345 closed_gate_state nidB ⟨100⟩).2.local_balance = ⟨900⟩
    ∧ alist_lookup
        (EnrBridge.transfer nidA true 12345 closed_gate_state nidB ⟨100⟩).2.pending_transfers
        ⟨nidA, nidB, 100, 12345⟩ ≠ none :=
  ⟨by decide, rfl, rfl, by decide⟩

/-! ## C7: component entropy scores are only capped above -/

/-- C7 counterexample: the component functions do not clamp below at 0: a
negative `latency_variance_ms` (a plain f64 in the source) drives the
network entropy score to `-1`, outside `[0, 10]`. -/
theorem component_entropy_negative_counterexample :
    calculate_network_entropy ⟨0, -100, 0, 0⟩ < 0 := by
  norm_num [calculate_network_entropy, HOP_ENTROPY_BASE, LATENCY_ENTROPY_FACTOR,
    LOSS_ENTROPY_FACTOR, SATURATION_ENTROPY_FACTOR, MAX_NETWORK_ENTROPY, min_def]

/-- C7 amended: for inputs whose fields are all non-negative, each of the
four component functions returns a score in `[0, 10]`; the code enforces
only the upper cap `min 10`, the lower bound coming from the sign of the
inputs. -/
theorem component_entropy_bounds :
    (∀ i : NetworkEntropyInput,
      0 ≤ i.latency_variance_ms → 0 ≤ i.packet_loss_probability →
      0 ≤ i.bandwidth_saturation →
      0 ≤ calculate_network_entropy i ∧ calculate_network_entropy i ≤ 10)
    ∧ (∀ i : ComputeEntropyInput, 0 ≤ i.cache_miss_rate →
      0 ≤ calculate_compute_entropy i ∧ calculate_compute_entropy i ≤ 10)
    ∧ (∀ i : StorageEntropyInput,
      0 ≤ i.replica_divergence → 0 ≤ i.fragmentation_ratio → 0 ≤ i.compaction_debt →
      0 ≤ calculate_storage_entropy i ∧ calculate_storage_entropy i ≤ 10)
    ∧ (∀ i : TemporalEntropyInput,
      0 ≤ i.staleness_seconds → 0 ≤ i.clock_drift_ms → 0 ≤ i.ordering_uncertainty →
      0 ≤ i.version_divergence →
      0 ≤ calculate_temporal_entropy i ∧ calculate_temporal_entropy i ≤ 10) := by
  refine ⟨fun i h1 h2 h3 => ?_, fun i h1 => ?_, fun i h1 h2 h3 => ?_,
    fun i h1 h2 h3 h4 => ?_⟩
  · unfold calculate_network_entropy HOP_ENTROPY_BASE LATENCY_ENTROPY_FACTOR
      LOSS_ENTROPY_FACTOR SATURATION_ENTROPY_FACTOR MAX_NETWORK_ENTROPY
    have h0 : (0 : ℚ) ≤ (i.hops : ℚ) := Nat.cast_nonneg _
    exact ⟨le_min (by nlinarith) (by norm_num), min_le_right _ _⟩
  · unfold calculate_compute_entropy CYCLE_ENTROPY_FACTOR MEMORY_ENTROPY_FACTOR
      CONTEXT_SWITCH_FACTOR CACHE_MISS_FACTOR MAX_COMPUTE_ENTROPY
    have h0 : (0 : ℚ) ≤ (i.cpu_cycles : ℚ) := Nat.cast_nonneg _
    have h2 : (0 : ℚ) ≤ (i.memory_bytes : ℚ) := Nat.cast_nonneg _
    have h3 : (0 : ℚ) ≤ (i.context_switches : ℚ) := Nat.cast_nonneg _
    exact ⟨le_min (by nlinarith) (by norm_num), min_le_right _ _⟩
  · unfold calculate_storage_entropy SIZE_ENTROPY_FACTOR REPLICA_DIVERGENCE_FACTOR
      FRAGMENTATION_FACTOR COMPACTION_DEBT_FACTOR MAX_STORAGE_ENTROPY
    have h0 : (0 : ℚ) ≤ (i.size_bytes : ℚ) := Nat.cast_nonneg _
    exact ⟨le_min (by nlinarith) (by norm_num), min_le_right _ _⟩
  · unfold calculate_temporal_entropy STALENESS_ENTROPY_FACTOR CLOCK_DRIFT_FACTOR
      ORDERING_UNCERTAINTY_FACTOR VERSION_DIVERGENCE_FACTOR MAX_TEMPORAL_ENTROPY
    exact ⟨le_min (by nlinarith) (by norm_num), min_le_right _ _⟩

/-- Witness for C7's amended bounds at the S1 scenario input
`{hops = 3, latency = 10, loss = 1/100, saturation = 1/2}`. -/
theorem component_entropy_bounds_witness :
    0 ≤ calculate_network_entropy ⟨3, 10, 1/100, 1/2⟩
    ∧ calculate_network_entropy ⟨3, 10, 1/100, 1/2⟩ ≤ 10 :=
  component_entropy_bounds.1 ⟨3, 10, 1/100, 1/2⟩ (by norm_num) (by norm_num) (by norm_num)

/-! ## C3: the price multiplier as a function of total entropy -/

/-- C3: `entropy_price_multiplier` is the piecewise map of the weighted
total S; that map is monotone non-decreasing, its branch values agree at
the breakpoints S = 2, 5, 8 (continuity), it is bounded in `[1, 5]` on
valid accounts, the all-zero account yields exactly 1 and the all-10
account exactly 5. -/
theorem entropy_price_multiplier_props :
    (∀ s t : ℚ, s ≤ t →
      entropy_price_multiplier_of_total s ≤ entropy_price_multiplier_of_total t)
    ∧ (∀ a : EntropyAccount, entropy_price_multiplier a =
        entropy_price_multiplier_of_total (weighted_entropy_sum a EntropyWeights.default))
    ∧ (entropy_price_multiplier_of_total 2 = 1 + 2 * (5/100)
        ∧ entropy_price_multiplier_of_total 5 = 11/10 + (5 - 2) * (1/10)
        ∧ entropy_price_multiplier_of_total 8 = 14/10 + (8 - 5) * (2/10))
    ∧ (∀ a : EntropyAccount, a.is_valid →
        1 ≤ entropy_price_multiplier a ∧ entropy_price_multiplier a ≤ 5)
    ∧ entropy_price_multiplier ⟨0, 0, 0, 0⟩ = 1
    ∧ entropy_price_multiplier ⟨10, 10, 10, 10⟩ = 5 := by
  have hmono : ∀ s t : ℚ, s ≤ t →
      entropy_price_multiplier_of_total s ≤ entropy_price_multiplier_of_total t := by
    intro s t hst
    unfold entropy_price_multiplier_of_total LOW_ENTROPY_THRESHOLD
      MED_ENTROPY_THRESHOLD HIGH_ENTROPY_THRESHOLD MAX_ENTROPY_MULTIPLIER
    apply min_le_min _ le_rfl
    split_ifs <;> linarith
  refine ⟨hmono, fun a => rfl, ⟨?_, ?_, ?_⟩, fun a hv => ?_, ?_, ?_⟩
  · norm_num [entropy_price_multiplier_of_total, LOW_ENTROPY_THRESHOLD,
      MED_ENTROPY_THRESHOLD, HIGH_ENTROPY_THRESHOLD, MAX_ENTROPY_MULTIPLIER, min_def]
  · norm_num [entropy_price_multiplier_of_total, LOW_ENTROPY_THRESHOLD,
      MED_ENTROPY_THRESHOLD, HIGH_ENTROPY_THRESHOLD, MAX_ENTROPY_MULTIPLIER, min_def]
  · norm_num [entropy_price_multiplier_of_total, LOW_ENTROPY_THRESHOLD,
      MED_ENTROPY_THRESHOLD, HIGH_ENTROPY_THRESHOLD, MAX_ENTROPY_MULTIPLIER, min_def]
  · obtain ⟨h1, h2, h3, h4, h5, h6, h7, h8⟩ := hv
    have hS0 : 0 ≤ weighted_entropy_sum a EntropyWeights.default := by
      unfold weighted_entropy_sum EntropyWeights.default
      nlinarith
    constructor
    · unfold entropy_price_multiplier entropy_price_multiplier_of_total
        LOW_ENTROPY_THRESHOLD MED_ENTROPY_THRESHOLD HIGH_ENTROPY_THRESHOLD
        MAX_ENTROPY_MULTIPLIER
      apply le_min _ (by norm_num)
      split_ifs <;> linarith
    · exact min_le_right _ _
  · norm_num [entropy_price_multiplier, entropy_price_multiplier_of_total,
      weighted_entropy_sum, EntropyWeights.default, LOW_ENTROPY_THRESHOLD,
      MED_ENTROPY_THRESHOLD, HIGH_ENTROPY_THRESHOLD, MAX_ENTROPY_MULTIPLIER, min_def]
  · norm_num [entropy_price_multiplier, entropy_price_multiplier_of_total,
      weighted_entropy_sum, EntropyWeights.default, LOW_ENTROPY_THRESHOLD,
      MED_ENTROPY_THRESHOLD, HIGH_ENTROPY_THRESHOLD, MAX_ENTROPY_MULTIPLIER, min_def]

/-- Witness for C3's bounded part at a concrete valid account. -/
theorem entropy_price_multiplier_props_witness :
    1 ≤ entropy_price_multiplier ⟨1, 2, 3, 4⟩
    ∧ entropy_price_multiplier ⟨1, 2, 3, 4⟩ ≤ 5 :=
  entropy_price_multiplier_props.2.2.2.1 ⟨1, 2, 3, 4⟩
    ⟨by norm_num, by norm_num, by norm_num, by norm_num, by norm_num, by norm_num,
      by norm_num, by norm_num⟩

/-! ## C6: only Gradient messages are age-checked -/

/-- Empty bridge state (fresh bridge, zero balance). -/
def c6_state : BridgeState :=
  ⟨[], [], ResourceGradient.zero, ⟨0⟩, [], [], []⟩

/-- A CreditStateSync message with timestamp 0 (far older than the 60 s
maximum age at `now = 200000` ms). -/
def c6_sync : CreditStateSync := ⟨nidB, 5000, 1, 0, List.replicate 64 0⟩

/-- C6 counterexample: an expired Credit message (now − timestamp =
200000 ms > 60000 ms) is NOT dropped: handle_message returns Ok and stores
the synced balance — the age check exists only in the Gradient arm. -/
theorem handle_message_expired_not_checked_counterexample :
    60000 < 200000 - c6_sync.timestamp
    ∧ (EnrBridge.handle_message nidA 200000 60000 c6_state
        (.Credit (.StateSync c6_sync))).1 = .ok ()
    ∧ (EnrBridge.handle_message nidA 200000 60000 c6_state
        (.Credit (.StateSync c6_sync))).2.known_balances = [(nidB, ⟨5000⟩)] :=
  ⟨by norm_num [c6_sync], rfl, rfl⟩

/-- C6 amended: a Gradient message whose age `now − timestamp` exceeds
max_message_age is rejected with MessageExpired and the state is unchanged;
the other three message families bypass the age check. -/
theorem handle_message_gradient_expired (local_id : NodeId)
    (now max_age : Nat) (st : BridgeState) (msg : GradientMessage)
    (h : max_age < now - msg.timestamp) :
    EnrBridge.handle_message local_id now max_age st (.Gradient msg) =
      (.error .MessageExpired, st) := by
  simp [EnrBridge.handle_message, h]

/-- Witness for C6's amended theorem: a 200 s old gradient message against a
60 s maximum age is dropped with MessageExpired, state untouched. -/
theorem handle_message_gradient_expired_witness :
    EnrBridge.handle_message nidA 200000 60000 c6_state
      (.Gradient ⟨nidB, ⟨0, 0, 0, 0, 0, 0⟩, 0, List.replicate 64 0⟩) =
      (.error .MessageExpired, c6_state) :=
  handle_message_gradient_expired nidA 200000 60000 c6_state
    ⟨nidB, ⟨0, 0, 0, 0, 0, 0⟩, 0, List.replicate 64 0⟩ (by norm_num)

/-! ## C5: redistribution plan totals -/

/-- Projection of `Credits.new`. -/
lemma Credits.new_amount (x : Nat) : (Credits.new x).amount = x := rfl

/-- The per-recipient amounts of one plan category sum to
`count * per_node`. -/
lemma recipients_sum (l : List NodeId) (c : Nat) :
    ((l.map (fun n => (n, Credits.new c))).map (fun p => p.2.amount)).sum
      = l.length * c := by
  induction l with
  | nil => simp
  | cons x xs ih =>
    simp only [List.map_cons, List.sum_cons, List.length_cons]
    rw [ih]
    show c + xs.length * c = (xs.length + 1) * c
    ring

/-- The 40 percent maintenance budget in Nat form. -/
lemma budget40 (t : Nat) :
    (⌊(t : ℚ) * NETWORK_MAINTENANCE_ALLOCATION⌋).toNat = t * 40 / 100 := by
  rw [NETWORK_MAINTENANCE_ALLOCATION,
    show ((40 : ℚ) / 100) = (((40 : Nat) : ℚ) / ((100 : Nat) : ℚ)) by norm_num]
  exact toNat_floor_mul_ratio t 40 100

/-- The 25 percent subsidy budget in Nat form. -/
lemma budget25 (t : Nat) :
    (⌊(t : ℚ) * NEW_NODE_SUBSIDY_ALLOCATION⌋).toNat = t * 25 / 100 := by
  rw [NEW_NODE_SUBSIDY_ALLOCATION,
    show ((25 : ℚ) / 100) = (((25 : Nat) : ℚ) / ((100 : Nat) : ℚ)) by norm_num]
  exact toNat_floor_mul_ratio t 25 100

/-- The 20 percent support budget in Nat form. -/
lemma budget20 (t : Nat) :
    (⌊(t : ℚ) * LOW_BALANCE_SUPPORT_ALLOCATION⌋).toNat = t * 20 / 100 := by
  rw [LOW_BALANCE_SUPPORT_ALLOCATION,
    show ((20 : ℚ) / 100) = (((20 : Nat) : ℚ) / ((100 : Nat) : ℚ)) by norm_num]
  exact toNat_floor_mul_ratio t 20 100

/-- The 15 percent reserve budget in Nat form. -/
lemma budget15 (t : Nat) :
    (⌊(t : ℚ) * RESERVE_BUFFER_ALLOCATION⌋).toNat = t * 15 / 100 := by
  rw [RESERVE_BUFFER_ALLOCATION,
    show ((15 : ℚ) / 100) = (((15 : Nat) : ℚ) / ((100 : Nat) : ℚ)) by norm_num]
  exact toNat_floor_mul_ratio t 15 100

/-- One category never distributes more than its budget. -/
lemma category_le_budget (l : List NodeId) (budget : Nat) :
    l.length * (if l.isEmpty then 0 else budget / l.length) ≤ budget := by
  cases l with
  | nil => simp
  | cons x xs =>
    have hne : ¬ ((x :: xs).isEmpty = true) := by simp
    rw [if_neg hne, Nat.mul_comm]
    exact Nat.div_mul_le_self _ _

/-- C5 amended: the plan's total never exceeds the redistributable amount;
the leftover is at most 3 when each of the three recipient categories has
exactly one recipient (in general per-category division remainders and the
whole budget of an empty category are additionally left undistributed, and
none of the leftover accrues to the reserve). -/
theorem plan_redistribution_bounds :
    (∀ (pool : RevivalPool) (metrics : NodeMetricsProvider),
      ((plan_redistribution pool metrics).total_distributed).amount ≤
        (pool.available_for_redistribution).amount)
    ∧ (∀ (pool : RevivalPool) (metrics : NodeMetricsProvider),
        (plan_redistribution pool metrics).maintenance_recipients.length = 1 →
        (plan_redistribution pool metrics).subsidy_recipients.length = 1 →
        (plan_redistribution pool metrics).support_recipients.length = 1 →
        (pool.available_for_redistribution).amount -
          ((plan_redistribution pool metrics).total_distributed).amount ≤ 3) := by
  constructor
  · intro pool metrics
    by_cases ht : pool.available_for_redistribution.amount = 0
    · simp [plan_redistribution, ht, RedistributionPlan.total_distributed,
        RedistributionPlan.empty]
    · simp only [plan_redistribution, if_neg ht, RedistributionPlan.total_distributed,
        recipients_sum, Credits.new_amount, budget40, budget25, budget20, budget15]
      have h1 := category_le_budget
        (metrics.get_nexus_nodes.filter
          (fun n => decide (MIN_NEXUS_UPTIME_FOR_MAINTENANCE ≤ metrics.get_uptime n)))
        (pool.available_for_redistribution.amount * 40 / 100)
      have h2 := category_le_budget
        (metrics.get_new_nodes.filter (fun n => metrics.is_healthy n))
        (pool.available_for_redistribution.amount * 25 / 100)
      have h3 := category_le_budget
        ((metrics.get_all_nodes.filter
            (fun n => decide ((metrics.get_balance n).amount < SUBSIDY_THRESHOLD))).filter
          (fun n => decide (MIN_REPUTATION_FOR_SUPPORT ≤ metrics.get_reputation n)))
        (pool.available_for_redistribution.amount * 20 / 100)
      omega
  · intro pool metrics hm hs hu
    by_cases ht : pool.available_for_redistribution.amount = 0
    · simp [plan_redistribution, ht, RedistributionPlan.total_distributed,
        RedistributionPlan.empty]
    · simp only [plan_redistribution, if_neg ht, List.length_map] at hm hs hu
      simp only [plan_redistribution, if_neg ht, RedistributionPlan.total_distributed,
        recipients_sum, Credits.new_amount, budget40, budget25, budget20, budget15]
      rw [hm, hs, hu]
      have hm0 : ¬ (metrics.get_nexus_nodes.filter
          (fun n => decide (MIN_NEXUS_UPTIME_FOR_MAINTENANCE ≤ metrics.get_uptime n))).isEmpty := by
        rw [List.isEmpty_iff_length_eq_zero]
        omega
      have hs0 : ¬ (metrics.get_new_nodes.filter (fun n => metrics.is_healthy n)).isEmpty := by
        rw [List.isEmpty_iff_length_eq_zero]
        omega
      have hu0 : ¬ ((metrics.get_all_nodes.filter
          (fun n => decide ((metrics.get_balance n).amount < SUBSIDY_THRESHOLD))).filter
            (fun n => decide (MIN_REPUTATION_FOR_SUPPORT ≤ metrics.get_reputation n))).isEmpty := by
        rw [List.isEmpty_iff_length_eq_zero]
        omega
      rw [if_neg hm0, if_neg hs0, if_neg hu0]
      omega

/-- Metrics provider with no known nodes at all. -/
def empty_metrics : NodeMetricsProvider :=
  ⟨[], [], [], fun _ => 0, fun _ => 0, fun _ => ⟨0⟩, fun _ => false⟩

/-- Pool with 100 recycled credits and nothing else. -/
def c5_pool : RevivalPool := ⟨⟨100⟩, ⟨0⟩, ⟨0⟩, ⟨0⟩⟩

/-- The reserve budget of 100 available credits is exactly 15. -/
lemma c5_reserve_eval : (⌊(100 : ℚ) * RESERVE_BUFFER_ALLOCATION⌋).toNat = 15 := by
  rw [show (100 : ℚ) * RESERVE_BUFFER_ALLOCATION = ((15 : Nat) : ℚ) by
      norm_num [RESERVE_BUFFER_ALLOCATION],
    Int.floor_natCast]
  rfl

/-- C5 counterexample: with 100 available credits and no eligible recipient
in any category, the plan only allocates the 15-credit reserve; the leftover
is 85, far above the claimed bound of 3, and it does not accrue to the
reserve. -/
theorem plan_redistribution_leftover_counterexample :
    (c5_pool.available_for_redistribution).amount -
      ((plan_redistribution c5_pool empty_metrics).total_distributed).amount = 85
    ∧ ¬ ((c5_pool.available_for_redistribution).amount -
        ((plan_redistribution c5_pool empty_metrics).total_distributed).amount ≤ 3)
    ∧ (plan_redistribution c5_pool empty_metrics).reserve_addition = ⟨15⟩ := by
  have h : ((plan_redistribution c5_pool empty_metrics).total_distributed).amount = 15 := by
    simp [plan_redistribution, c5_pool, empty_metrics,
      RevivalPool.available_for_redistribution, RedistributionPlan.total_distributed,
      Credits.new_amount, c5_reserve_eval]
  have ha : (c5_pool.available_for_redistribution).amount = 100 := rfl
  refine ⟨by omega, by omega, ?_⟩
  simp only [plan_redistribution, c5_pool, empty_metrics,
    RevivalPool.available_for_redistribution]
  norm_num [Credits.new, c5_reserve_eval]

/-- Metrics provider with exactly one recipient per category. -/
def one_each_metrics : NodeMetricsProvider :=
  ⟨[nidC], [nidA], [nidB], fun _ => 1, fun _ => 1, fun _ => ⟨0⟩, fun _ => true⟩

/-- The plan for `c5_pool` and `one_each_metrics` has one recipient in each
category. -/
lemma one_each_lengths :
    (plan_redistribution c5_pool one_each_metrics).maintenance_recipients.length = 1
    ∧ (plan_redistribution c5_pool one_each_metrics).subsidy_recipients.length = 1
    ∧ (plan_redistribution c5_pool one_each_metrics).support_recipients.length = 1 := by
  refine ⟨?_, ?_, ?_⟩ <;>
    norm_num [plan_redistribution, c5_pool, one_each_metrics,
      RevivalPool.available_for_redistribution, MIN_NEXUS_UPTIME_FOR_MAINTENANCE,
      MIN_REPUTATION_FOR_SUPPORT, SUBSIDY_THRESHOLD, List.filter]

/-- Witness for C5's amended theorem: with one recipient per category and
100 available credits, the leftover is at most 3. -/
theorem plan_redistribution_bounds_witness :
    (c5_pool.available_for_redistribution).amount -
      ((plan_redistribution c5_pool one_each_metrics).total_distributed).amount ≤ 3 :=
  plan_redistribution_bounds.2 c5_pool one_each_metrics
    one_each_lengths.1 one_each_lengths.2.1 one_each_lengths.2.2

/-! ## C4: election winner -/

/-- The `max_by` fold's result is an element of the scanned list. -/
lemma foldl_max_mem {α : Type} (score : α → ℚ) (x : α) (l : List α) :
    l.foldl (fun acc y => if score y < score acc then acc else y) x ∈ x :: l := by
  induction l generalizing x with
  | nil => simp
  | cons y ys ih =>
    simp only [List.foldl_cons]
    rcases List.mem_cons.mp (ih (if score y < score x then x else y)) with h | h
    · rw [h]
      split
      · exact List.mem_cons_self _ _
      · exact List.mem_cons_of_mem _ (List.mem_cons_self _ _)
    · exact List.mem_cons_of_mem _ (List.mem_cons_of_mem _ h)

/-- The `max_by` fold's result has a maximal score. -/
lemma foldl_max_ge {α : Type} (score : α → ℚ) (x : α) (l : List α) :
    ∀ z ∈ x :: l,
      score z ≤ score (l.foldl (fun acc y => if score y < score acc then acc else y) x) := by
  induction l generalizing x with
  | nil =>
    intro z hz
    rw [List.mem_singleton] at hz
    subst hz
    exact le_refl _
  | cons y ys ih =>
    intro z hz
    simp only [List.foldl_cons]
    have hacc1 : score x ≤ score (if score y < score x then x else y) := by
      by_cases hxy : score y < score x
      · rw [if_pos hxy]
      · rw [if_neg hxy]
        exact le_of_not_lt hxy
    have hacc2 : score y ≤ score (if score y < score x then x else y) := by
      by_cases hxy : score y < score x
      · rw [if_pos hxy]
        exact le_of_lt hxy
      · rw [if_neg hxy]
    rcases List.mem_cons.mp hz with rfl | hz2
    · exact hacc1.trans (ih _ _ (List.mem_cons_self _ _))
    · rcases List.mem_cons.mp hz2 with rfl | hz3
      · exact hacc2.trans (ih _ _ (List.mem_cons_self _ _))
      · exact ih _ _ (List.mem_cons_of_mem _ hz3)

/-- On a two-node region where both nodes pass the eligibility filter and
the first node's score is at most the second's, `elect` returns the SECOND
node: `max_by` resolves ties (and maxima) towards the later element. -/
lemma elect_pair_eligible (m : NodeMetrics) (rid : String) (a b : NodeId)
    (ha : is_nexus_eligible (m.get_uptime a) (m.get_bandwidth a) (m.get_reputation a) = true)
    (hb : is_nexus_eligible (m.get_uptime b) (m.get_bandwidth b) (m.get_reputation b) = true)
    (hsc : calculate_election_score (build_candidate m a) ≤
      calculate_election_score (build_candidate m b)) :
    NexusElector.elect m (Region.with_nodes rid [a, b]) = some b := by
  have hpa : (fun c : NexusCandidate =>
      is_nexus_eligible c.uptime c.bandwidth c.reputation) (build_candidate m a) = true := ha
  have hpb : (fun c : NexusCandidate =>
      is_nexus_eligible c.uptime c.bandwidth c.reputation) (build_candidate m b) = true := hb
  simp only [NexusElector.elect, Region.with_nodes, List.map_cons, List.map_nil,
    List.filter_cons, List.filter_nil, hpa, hpb, if_true, List.isEmpty_cons,
    Bool.false_eq_true, if_false, max_by_score, List.foldl_cons, List.foldl_nil]
  rw [if_neg (not_lt.mpr hsc)]
  rfl

/-- C4 amended: for a non-empty region whose members all pass the
eligibility filter, `elect` returns a member whose code score (which uses
the integer optimum 27, not 27.5, in `normalize_connectivity`) is maximal;
among equally scored candidates the LAST one in region order wins (the
behaviour of Rust's `max_by`), not the lexicographically smallest NodeId. -/
theorem elect_amended_max_score :
    (∀ (m : NodeMetrics) (region : Region), region.nodes ≠ [] →
      (∀ n ∈ region.nodes,
        is_nexus_eligible (m.get_uptime n) (m.get_bandwidth n) (m.get_reputation n) = true) →
      ∃ w, NexusElector.elect m region = some w ∧ w ∈ region.nodes ∧
        ∀ n ∈ region.nodes,
          calculate_election_score (build_candidate m n) ≤
            calculate_election_score (build_candidate m w))
    ∧ (∀ (m : NodeMetrics) (rid : String) (a b : NodeId),
        is_nexus_eligible (m.get_uptime a) (m.get_bandwidth a) (m.get_reputation a) = true →
        is_nexus_eligible (m.get_uptime b) (m.get_bandwidth b) (m.get_reputation b) = true →
        calculate_election_score (build_candidate m a) ≤
          calculate_election_score (build_candidate m b) →
        NexusElector.elect m (Region.with_nodes rid [a, b]) = some b) := by
  constructor
  · intro m region hne hel
    obtain ⟨x, xs, hx⟩ : ∃ x xs, region.nodes = x :: xs := by
      cases h : region.nodes with
      | nil => exact absurd h hne
      | cons x xs => exact ⟨x, xs, rfl⟩
    rw [hx] at hel
    rw [hx]
    have hfilter : (build_candidate m x :: xs.map (build_candidate m)).filter
        (fun c => is_nexus_eligible c.uptime c.bandwidth c.reputation) =
        build_candidate m x :: xs.map (build_candidate m) := by
      rw [List.filter_eq_self]
      intro c hc
      rw [← List.map_cons] at hc
      obtain ⟨n, hn, rfl⟩ := List.mem_map.mp hc
      exact hel n hn
    have helect : NexusElector.elect m region =
        some ((xs.map (build_candidate m)).foldl
          (fun acc y => if calculate_election_score y < calculate_election_score acc
            then acc else y) (build_candidate m x)).node := by
      simp only [NexusElector.elect, hx, List.map_cons, hfilter, List.isEmpty_cons,
        Bool.false_eq_true, if_false, max_by_score, Option.map_some']
    have hmem := foldl_max_mem calculate_election_score (build_candidate m x)
        (xs.map (build_candidate m))
    rw [← List.map_cons] at hmem
    obtain ⟨n0, hn0mem, hn0eq⟩ := List.mem_map.mp hmem
    refine ⟨n0, ?_, hn0mem, ?_⟩
    · rw [helect, ← hn0eq]
      rfl
    · intro n hn
      have hge := foldl_max_ge calculate_election_score (build_candidate m x)
          (xs.map (build_candidate m)) (build_candidate m n)
          (by rw [← List.map_cons]; exact List.mem_map_of_mem _ hn)
      rw [← hn0eq] at hge
      exact hge
  · intro m rid a b ha hb hsc
    exact elect_pair_eligible m rid a b ha hb hsc

/-- Metrics giving every node uptime 1, bandwidth 100 Mbps, reputation 1 and
27 leaves (all identical, all eligible). -/
def const_metrics : NodeMetrics :=
  ⟨fun _ => 1, fun _ => 100000000, fun _ => 1, fun _ => 27⟩

/-- Every node is eligible under `const_metrics`. -/
lemma const_metrics_eligible (n : NodeId) :
    is_nexus_eligible (const_metrics.get_uptime n) (const_metrics.get_bandwidth n)
      (const_metrics.get_reputation n) = true := by
  simp only [const_metrics, is_nexus_eligible, MIN_NEXUS_UPTIME, MIN_NEXUS_BANDWIDTH,
    MIN_NEXUS_REPUTATION, Bool.and_eq_true, decide_eq_true_eq]
  norm_num

/-- The two-node region `[nidA, nidB]` with identical candidates. -/
def tie_region : Region := Region.with_nodes "tie" [nidA, nidB]

/-- C4 counterexample: in a region of two identically scored eligible
candidates listed as `[nidA, nidB]` with `nidA` lexicographically smaller,
`elect` returns `nidB` — the later element — and not the lexicographically
smallest id `nidA` the claim requires. -/
theorem elect_tiebreak_counterexample :
    NexusElector.elect const_metrics tie_region = some nidB
    ∧ calculate_election_score (build_candidate const_metrics nidA)
        = calculate_election_score (build_candidate const_metrics nidB)
    ∧ NodeId.lexLt nidA nidB = true
    ∧ (some nidB : Option NodeId) ≠ some nidA :=
  ⟨elect_pair_eligible const_metrics "tie" nidA nidB
      (const_metrics_eligible nidA) (const_metrics_eligible nidB) (le_of_eq rfl),
    rfl, by decide, by decide⟩

/-- Witness for C4's amended theorem on a singleton eligible region. -/
theorem elect_amended_max_score_witness :
    ∃ w, NexusElector.elect const_metrics (Region.with_nodes "solo" [nidA]) = some w
      ∧ w ∈ (Region.with_nodes "solo" [nidA]).nodes
      ∧ ∀ n ∈ (Region.with_nodes "solo" [nidA]).nodes,
          calculate_election_score (build_candidate const_metrics n) ≤
            calculate_election_score (build_candidate const_metrics w) :=
  elect_amended_max_score.1 const_metrics (Region.with_nodes "solo" [nidA])
    (by simp [Region.with_nodes]) (fun n _ => const_metrics_eligible n)
